import Mathlib

/-!
Shallow embedding of the FlagImage pipeline module
(src/cellprofiler/modules/flagimage.py) and proofs about its flag
evaluation engine and settings-schema migrator.

Modelling conventions:
* Python floats are modelled as `Option ℚ` where `none` plays the role of
  NaN: every ordered comparison involving NaN is `false`, exactly as in
  IEEE semantics, which is what the source relies on.
* Display strings built by the source from numbers (`str(round(v, 3))`,
  `"%.3f - %.3f" % (mn, mx)`, `str(v)`, `"%d of %d"`, the literals
  `"No objects"` and `"--"`) are modelled by the inductive
  `DisplayValue`, one constructor per formatting site of the source, so
  that claims about which display is produced are provable without
  modelling decimal rendering of floats.
* Fallible Python code (exceptions) is modelled with `Except`.
-/

namespace FlagImage

/-- Python float values as used by the module: `none` models NaN. -/
abbrev Val := Option ℚ

/-- Strict `<` on float values: any comparison involving NaN is false. -/
def vlt : Val → Val → Bool
  | some a, some b => decide (a < b)
  | _, _ => false

/-- String constant `C_ANY` of the source. -/
def C_ANY : String := "Flag if any fail"

/-- String constant `C_ALL` of the source. -/
def C_ALL : String := "Flag if all fail"

/-- String constant `S_IMAGE` of the source. -/
def S_IMAGE : String := "Whole-image measurement"

/-- String constant `S_AVERAGE_OBJECT` of the source. -/
def S_AVERAGE_OBJECT : String := "Average measurement for all objects in each image"

/-- String constant `S_ALL_OBJECTS` of the source. -/
def S_ALL_OBJECTS : String := "Measurements for all objects in each image"

/-- String constant `S_RULES` of the source. -/
def S_RULES : String := "Rules"

/-- `cpmeas.IMAGE`, the image-scope name of the measurements subsystem. -/
def IMAGE : String := "Image"

/-- Modelled from the spec: `cps.NO`, the persisted form of a cleared
binary setting in the companion settings library (outside src/). -/
def cps_NO : String := "No"

/-- Modelled from the spec: `cps.YES`, the persisted form of a set
binary setting in the companion settings library (outside src/). -/
def cps_YES : String := "Yes"

/-- Modelled from the spec: `cps.NONE`, the "None" choice string of the
companion settings library (outside src/). -/
def cps_NONE : String := "None"

/-- Modelled from the spec: `cps.DEFAULT_INPUT_FOLDER_NAME` of the
companion settings library (outside src/). -/
def DEFAULT_INPUT_FOLDER_NAME : String := "Default Input Folder"

/-- Modelled from the spec: `cps.DirectoryPath.static_join_string`, which
joins a directory choice and a custom path with a vertical bar (outside
src/); used by the v2->v3 migration as the default rules location. -/
def static_join_string (dir_choice custom_path : String) : String :=
  dir_choice ++ "|" ++ custom_path

/-- The default rules-file location appended by the v2->v3 migration
step: `static_join_string(DEFAULT_INPUT_FOLDER_NAME, NONE)`. -/
def default_rules_location : String :=
  static_join_string DEFAULT_INPUT_FOLDER_NAME cps_NONE

/-- One parsed rule of a CellProfiler Analyst rules file, as produced by
the external parser `cellprofiler.utilities.rules` (an external
collaborator: only the fields this module reads are modelled). -/
structure Rule where
  object_name : String
  feature : String
deriving DecidableEq, Repr

/-- A parsed rule set together with the per-object class-score matrix the
external Rule Scorer (`rules.score(measurements)`) produces on the
current image set: one row per image-scope object, one column per class;
`none` entries model NaN scores. -/
structure RuleSet where
  rules : List Rule
  score : List (List Val)
deriving DecidableEq, Repr

/-- State of a rules file on disk: missing (`os.path.isfile` false),
present but unparsable (the parser raises), or parsed. -/
inductive FileStatus
  | missing
  | unreadable
  | parsed (rs : RuleSet)
deriving DecidableEq, Repr

/-- The rules-file environment: the state of each path on disk at the
moment a lookup happens. -/
structure RulesEnv where
  fs : String → FileStatus

/-- The measurement store interface consumed by the module:
`get_current_image_measurement` and `get_current_measurement`. -/
structure MeasurementStore where
  image : String → ℚ
  objectData : String → String → List ℚ

/-- Pipeline disposition signal (`cpw.DISPOSITION_CONTINUE` /
`cpw.DISPOSITION_SKIP`). -/
inductive Disposition
  | dispositionContinue
  | dispositionSkip
deriving DecidableEq, Repr

/-- The workspace as this module touches it: the measurement store it
reads, the image-level measurements it has written (most recent first),
and the disposition signal. -/
structure Workspace where
  measurements : MeasurementStore
  image_written : List (String × ℤ)
  disposition : Disposition

/-- One measurement criterion of a flag (the settings group built by
`add_measurement`); `rules_class` holds the user-selected 1-based class
numbers (the strings of the multi-choice, parsed). -/
structure MeasurementSetting where
  source_choice : String
  object_name : String
  measurement : String
  wants_minimum : Bool
  minimum_value : ℚ
  wants_maximum : Bool
  maximum_value : ℚ
  rules_directory : String
  rules_file_name : String
  rules_class : List ℕ

/-- One flag (the settings group built by `add_flag`). -/
structure Flag where
  category : String
  feature_name : String
  combination_choice : String
  wants_skip : Bool
  measurement_settings : List MeasurementSetting

/-- Errors the evaluation code can raise. `validationError` carries the
message and the offending setting reference (the rules-file-name
setting), as `cps.ValidationError(message, setting)` does; `parseFailure`
models a non-ValidationError exception escaping the external rules
parser; `notImplementedError` models `NotImplementedError`;
`indexError` models indexing an empty settings list. -/
inductive RunError
  | validationError (message : String) (setting : String)
  | parseFailure (path : String)
  | notImplementedError (what : String)
  | indexError
deriving DecidableEq, Repr

/-- The display value of one criterion evaluation; one constructor per
string-formatting site of `eval_measurement`:
`rounded3 v` = `str(round(v, 3))`, `raw v` = `str(v)`,
`range3 lo hi` = `"%.3f - %.3f" % (lo, hi)`, `noObjects` = `"No objects"`,
`ruleCounts h t` = `"%d of %d" % (h, t)`, `dashes` = `"--"`. -/
inductive DisplayValue
  | rounded3 (value : ℚ)
  | raw (value : ℚ)
  | range3 (lo hi : ℚ)
  | noObjects
  | ruleCounts (hits total : ℕ)
  | dashes
deriving DecidableEq, Repr

/-- The per-criterion statistics tuple returned by `eval_measurement`
(without the flag-name column that `run_flag` prepends). -/
structure Stats where
  source : String
  measurement : String
  display : DisplayValue
  verdict : String
deriving DecidableEq, Repr

/-- `measurement_name`: the flag measurement is named
category `_` feature name. -/
def measurement_name (flag : Flag) : String :=
  flag.category ++ "_" ++ flag.feature_name

/-- `os.path.join(rules_directory, rules_file)` for the rules file. -/
def rules_path (ms : MeasurementSetting) : String :=
  ms.rules_directory ++ "/" ++ ms.rules_file_name

/-- `FlagImage.get_rules`: read the rules from a file.  Raises
`cps.ValidationError("No such rules file: path", rules_file)` when the
file is absent; a file the parser cannot read raises the parser
exception (not a ValidationError). -/
def get_rules (env : RulesEnv) (ms : MeasurementSetting) : Except RunError RuleSet :=
  match env.fs (rules_path ms) with
  | .missing =>
      .error (.validationError ("No such rules file: " ++ rules_path ms) ms.rules_file_name)
  | .unreadable => .error (.parseFailure (rules_path ms))
  | .parsed rs => .ok rs

/-- One step of the scan loop of `np.argmax` over one row of scores: a
candidate displaces the running maximum when it is strictly greater, or
when it is NaN and the running maximum is not (numpy lets the first NaN
win). -/
def npArgmaxAux : List Val → ℕ → Val → ℕ → ℕ
  | [], _, _, best => best
  | v :: rest, i, cur, best =>
      if vlt cur v || (v.isNone && cur.isSome) then npArgmaxAux rest (i + 1) v i
      else npArgmaxAux rest (i + 1) cur best

/-- `np.argmax` over one row (0 on an empty row, which numpy rejects;
rows scored by the Rule Scorer are never empty in practice). -/
def npArgmax : List Val → ℕ
  | [] => 0
  | v :: rest => npArgmaxAux rest 1 v 0

/-- `np.mean` of a non-empty vector. -/
def listMean (d : ℚ) (ds : List ℚ) : ℚ :=
  (d + ds.sum) / ((ds.length : ℚ) + 1)

/-- The per-source-branch outcome of `eval_measurement` before the final
fail combination of lines 571-576: the branch-local `fail` flag,
`min_value`/`max_value` (left `none`, i.e. unbound, by the RULES branch,
whose guard in the final combination keeps them unread), the display
value and the source label. -/
structure BranchOut where
  fail : Bool
  min_value : Val
  max_value : Val
  display : DisplayValue
  source : String
deriving DecidableEq, Repr

/-- The source-choice dispatch of `FlagImage.eval_measurement`
(lines 516-570): one branch per value of the `source_choice` setting,
`NotImplementedError` otherwise. -/
def branch_eval (env : RulesEnv) (w : Workspace) (ms : MeasurementSetting) :
    Except RunError BranchOut :=
  if ms.source_choice = S_IMAGE then
    let value := w.measurements.image ms.measurement
    .ok ⟨false, some value, some value, .rounded3 value, IMAGE⟩
  else if ms.source_choice = S_AVERAGE_OBJECT then
    match w.measurements.objectData ms.object_name ms.measurement with
    | [] => .ok ⟨true, none, none, .noObjects, "Ave. " ++ ms.object_name⟩
    | d :: ds =>
        let mv := listMean d ds
        .ok ⟨false, some mv, some mv, .rounded3 mv, "Ave. " ++ ms.object_name⟩
  else if ms.source_choice = S_ALL_OBJECTS then
    match w.measurements.objectData ms.object_name ms.measurement with
    | [] => .ok ⟨true, none, none, .noObjects, ms.object_name⟩
    | d :: ds =>
        let mn := ds.foldl min d
        let mx := ds.foldl max d
        .ok ⟨false, some mn, some mx,
             if mn = mx then .raw mn else .range3 mn mx, ms.object_name⟩
  else if ms.source_choice = S_RULES then do
    let rules ← get_rules env ms
    let scores := rules.score
    let rules_classes : List ℤ := ms.rules_class.map (fun (x : ℕ) => (x : ℤ) - 1)
    let kept := scores.filter (fun row => row.any (fun v => v.isSome))
    let objclass := kept.map npArgmax
    let hit_count := (objclass.map (fun (c : ℕ) => rules_classes.count ((c : ℤ)))).sum
    let fail := decide ((hit_count : ℤ) > (scores.length : ℤ) - (hit_count : ℤ))
    .ok ⟨fail, none, none,
         if scores.length > 1 then .ruleCounts hit_count scores.length else .dashes,
         IMAGE⟩
  else .error (.notImplementedError ms.source_choice)

/-- `FlagImage.eval_measurement`: evaluate one criterion, returning
`(passed, stats)`.  The final `fail` is the combination of lines
571-576: for non-RULES sources the branch fail flag OR-ed with the two
enabled threshold tests, for RULES the branch fail flag alone. -/
def eval_measurement (env : RulesEnv) (w : Workspace) (ms : MeasurementSetting) :
    Except RunError (Bool × Stats) := do
  let b ← branch_eval env w ms
  let fail :=
    (decide (ms.source_choice ≠ S_RULES) &&
      (b.fail ||
       (ms.wants_minimum && vlt b.min_value (some ms.minimum_value)) ||
       (ms.wants_maximum && vlt (some ms.maximum_value) b.max_value))) ||
    (decide (ms.source_choice = S_RULES) && b.fail)
  .ok (!fail,
       ⟨b.source,
        if ms.source_choice ≠ S_RULES then ms.measurement else "Rules",
        b.display,
        if fail then "Fail" else "Pass"⟩)

/-- The per-criterion combination step of `run_flag` (lines 489-495):
`ok or ok_1` under `C_ALL`, `ok and ok_1` under `C_ANY`,
`NotImplementedError` otherwise. -/
def combine (comb : String) (ok ok_1 : Bool) : Except RunError Bool :=
  if comb = C_ALL then .ok (ok || ok_1)
  else if comb = C_ANY then .ok (ok && ok_1)
  else .error (.notImplementedError comb)

/-- The loop of `run_flag` over the criteria after the first: evaluate
each, combine its verdict into the accumulator, collect statistics. -/
def eval_loop (env : RulesEnv) (w : Workspace) (comb : String) :
    Bool → List MeasurementSetting → Except RunError (Bool × List Stats)
  | ok, [] => .ok (ok, [])
  | ok, ms :: rest => do
      let (ok_1, st) ← eval_measurement env w ms
      let ok' ← combine comb ok ok_1
      let (okf, sts) ← eval_loop env w comb ok' rest
      .ok (okf, st :: sts)

/-- Body of `run_flag` over the criteria list (empty list models the
`IndexError` of `measurement_settings[0]`). -/
def run_flag_aux (env : RulesEnv) (w : Workspace) (flag : Flag) :
    List MeasurementSetting → Except RunError (Workspace × List (String × Stats))
  | [] => .error .indexError
  | m0 :: rest => do
      let (ok0, st0) ← eval_measurement env w m0
      let (ok, sts) ← eval_loop env w flag.combination_choice ok0 rest
      let w' : Workspace :=
        { w with
          image_written :=
            (measurement_name flag, if ok then (0 : ℤ) else 1) :: w.image_written,
          disposition :=
            if !ok && flag.wants_skip then .dispositionSkip else w.disposition }
      .ok (w', (st0 :: sts).map (fun s => (measurement_name flag, s)))

/-- `FlagImage.run_flag`: evaluate all criteria of one flag, write the
flag measurement (`0` if the aggregate ok is true, else `1`), set the
skip disposition when a failing flag wants it, and return the
statistics rows (flag name prepended to each). -/
def run_flag (env : RulesEnv) (w : Workspace) (flag : Flag) :
    Except RunError (Workspace × List (String × Stats)) :=
  run_flag_aux env w flag flag.measurement_settings

/-- Body of `flag_verdict` over the criteria list. -/
def flag_verdict_aux (env : RulesEnv) (w : Workspace) (flag : Flag) :
    List MeasurementSetting → Except RunError Bool
  | [] => .error .indexError
  | m0 :: rest => do
      let (ok0, _) ← eval_measurement env w m0
      let (ok, _) ← eval_loop env w flag.combination_choice ok0 rest
      .ok ok

/-- The aggregate verdict a `run_flag` call computes before writing the
measurement: derived observer over the same evaluation chain. -/
def flag_verdict (env : RulesEnv) (w : Workspace) (flag : Flag) :
    Except RunError Bool :=
  flag_verdict_aux env w flag flag.measurement_settings

/-- Evaluate a list of criteria independently (no combining), collecting
each `(passed, stats)` pair; errors propagate as in the source loop. -/
def eval_all (env : RulesEnv) (w : Workspace) :
    List MeasurementSetting → Except RunError (List (Bool × Stats))
  | [] => .ok []
  | ms :: rest => do
      let p ← eval_measurement env w ms
      let ps ← eval_all env w rest
      .ok (p :: ps)

/-- A printable message for an exception caught by `validate_module`
and re-wrapped into a `ValidationError` (`str(instance)`). -/
def errMessage : RunError → String
  | .validationError msg _ => msg
  | .parseFailure path => "Failed to parse rules file: " ++ path
  | .notImplementedError what => "Not implemented: " ++ what
  | .indexError => "index out of range"

/-- The body of `FlagImage.validate_module` for one measurement setting:
for a RULES criterion, load the rules (any exception becomes a
`ValidationError` carrying the rules-file-name setting), then reject
rule sets with non-image rules, then rule features that no earlier
pipeline module measures (`pipeline.get_measurement_columns`). -/
def validate_ms (env : RulesEnv) (cols : List String) (ms : MeasurementSetting) :
    Except RunError Unit :=
  if ms.source_choice = S_RULES then
    match get_rules env ms with
    | .error e => .error (.validationError (errMessage e) ms.rules_file_name)
    | .ok rs =>
        if !(rs.rules.all (fun r => r.object_name = IMAGE)) then
          .error (.validationError
            ("The rules listed in " ++ ms.rules_file_name ++
             " describe objects instead of images.")
            ms.rules_file_name)
        else
          match (rs.rules.map Rule.feature).filter (fun f => !(cols.contains f)) with
          | [] => .ok ()
          | f :: _ =>
              .error (.validationError
                ("The rule described by " ++ f ++
                 " has not been measured earlier in the pipeline.")
                ms.rules_file_name)
  else .ok ()

/-- Inner loop of `validate_module` over the measurement settings of one
flag. -/
def validate_list (env : RulesEnv) (cols : List String) :
    List MeasurementSetting → Except RunError Unit
  | [] => .ok ()
  | ms :: rest => do
      validate_ms env cols ms
      validate_list env cols rest

/-- `FlagImage.validate_module`: validate every RULES criterion of every
flag, fail-fast on the first offending one. -/
def validate_module (env : RulesEnv) (cols : List String) :
    List Flag → Except RunError Unit
  | [] => .ok ()
  | flag :: rest => do
      validate_list env cols flag.measurement_settings
      validate_module env cols rest

/-- Whether one measurement setting makes `validate_module` raise: it is
a RULES criterion whose file is missing or unreadable, or whose parsed
rule set has a non-image rule or a feature missing from the pipeline
columns. -/
def rules_setting_bad (env : RulesEnv) (cols : List String)
    (ms : MeasurementSetting) : Bool :=
  if ms.source_choice = S_RULES then
    match env.fs (rules_path ms) with
    | .missing => true
    | .unreadable => true
    | .parsed rs =>
        if rs.rules.all (fun r => r.object_name = IMAGE) then
          !((rs.rules.map Rule.feature).filter (fun f => !(cols.contains f)) =
            ([] : List String))
        else true
  else false

/-! ## Schema migration (`FlagImage.upgrade_settings`)

The persisted configuration is a flat list of strings.  Python list
slices (`setting_values[i:j]`) never raise and silently shorten when the
list runs out; bare indexing (`setting_values[idx]`) raises `IndexError`;
`int(...)` of a non-numeric string raises `ValueError`.  The loops below
consume the remainder of the list (`rest = setting_values[idx:]`), which
is equivalent to the source's index arithmetic because every access of a
step is at or after `idx`. -/

/-- Errors `upgrade_settings` can raise: indexing past the end of the
settings list, or `int()` of a non-numeric count field. -/
inductive MigErr
  | indexError
  | valueError
deriving DecidableEq, Repr

/-- `setting_values[idx]` relative to the list remainder. -/
def headE : List String → Except MigErr String
  | [] => .error .indexError
  | s :: _ => .ok s

/-- The decimal digit character for `d < 10`. -/
def digitChar (d : ℕ) : Char :=
  match d with
  | 0 => '0'
  | 1 => '1'
  | 2 => '2'
  | 3 => '3'
  | 4 => '4'
  | 5 => '5'
  | 6 => '6'
  | 7 => '7'
  | 8 => '8'
  | _ => '9'

/-- The value of a decimal digit character. -/
def digitVal (c : Char) : ℕ := c.toNat - 48

/-- Whether a character is a decimal digit. -/
def isDigitChar (c : Char) : Bool := 48 ≤ c.toNat && c.toNat ≤ 57

/-- The decimal digit values of `n`, least significant first, with
structural fuel (`fuel ≥ n` suffices because `n / 10 < n` for `n > 0`). -/
def natDigitsRevAux : ℕ → ℕ → List ℕ
  | 0, _ => []
  | _ + 1, 0 => []
  | f + 1, n + 1 => (n + 1) % 10 :: natDigitsRevAux f ((n + 1) / 10)

/-- Decimal rendering of a natural number (`str(n)` for counts). -/
def natToString (n : ℕ) : String :=
  if n = 0 then "0" else String.mk (((natDigitsRevAux n n).reverse).map digitChar)

/-- Horner accumulation of decimal digit values. -/
def parseDigits : ℕ → List ℕ → ℕ
  | acc, [] => acc
  | acc, d :: rest => parseDigits (acc * 10 + d) rest

/-- Parse a plain nonnegative decimal string. -/
def parseNat (s : String) : Option ℕ :=
  if s.data ≠ [] ∧ s.data.all isDigitChar then
    some (parseDigits 0 (s.data.map digitVal))
  else none

/-- Python `int()` of a count field as the migration uses it: a
nonnegative decimal parses to its value; a negative decimal is mapped to
0 because `range()` of a negative count iterates zero times, which makes
a negative count behaviourally identical to 0 in every loop of
`upgrade_settings`; anything else raises `ValueError`. -/
def parseIntE (s : String) : Except MigErr ℕ :=
  match parseNat s with
  | some n => .ok n
  | none =>
      match s.data with
      | '-' :: c :: rest =>
          if (c :: rest).all isDigitChar then .ok 0 else .error .valueError
      | _ => .error .valueError

/-- The source-choice renaming of the v1 -> v2 migration step. -/
def renameSource (s : String) : String :=
  if s.startsWith "Measurement for all" || s = "All objects" then S_ALL_OBJECTS
  else if s = "Average for objects" then S_AVERAGE_OBJECT
  else if s = "Image" then S_IMAGE
  else s

/-- v1 -> v2, per-measurement loop: rename the source choice, copy the
remaining six fields, advance by 7. -/
def v1_meas_loop : ℕ → List String → Except MigErr (List String × List String)
  | 0, rest => .ok ([], rest)
  | k + 1, rest => do
      let src ← headE rest
      let (out, rest') ← v1_meas_loop k (rest.drop 7)
      .ok ([renameSource src] ++ (rest.drop 1).take 6 ++ out, rest')

/-- v1 -> v2, per-flag loop: copy the four flag fields, append the new
`wants_skip` default `cps.NO`, then migrate the declared number of
measurements. -/
def v1_flag_loop : ℕ → List String → Except MigErr (List String)
  | 0, _ => .ok []
  | k + 1, rest => do
      let mcS ← headE rest
      let mc ← parseIntE mcS
      let (mout, rest') ← v1_meas_loop mc (rest.drop 4)
      let tail ← v1_flag_loop k rest'
      .ok (rest.take 4 ++ [cps_NO] ++ mout ++ tail)

/-- The v1 -> v2 migration step of `upgrade_settings`. -/
def v1_to_v2 (sv : List String) : Except MigErr (List String) := do
  let c ← headE sv
  let n ← parseIntE c
  let out ← v1_flag_loop n (sv.drop 1)
  .ok (c :: out)

/-- v2 -> v3, per-measurement loop: copy the seven fields and append the
new rules defaults (rules location, `"rules.txt"`). -/
def v2_meas_loop : ℕ → List String → Except MigErr (List String × List String)
  | 0, rest => .ok ([], rest)
  | k + 1, rest => do
      let src ← headE rest
      let (out, rest') ← v2_meas_loop k (rest.drop 7)
      .ok ([src] ++ (rest.drop 1).take 6 ++ [default_rules_location, "rules.txt"] ++ out,
           rest')

/-- v2 -> v3, per-flag loop: copy the five flag fields, then migrate the
declared number of measurements. -/
def v2_flag_loop : ℕ → List String → Except MigErr (List String)
  | 0, _ => .ok []
  | k + 1, rest => do
      let mcS ← headE rest
      let mc ← parseIntE mcS
      let (mout, rest') ← v2_meas_loop mc (rest.drop 5)
      let tail ← v2_flag_loop k rest'
      .ok (rest.take 5 ++ mout ++ tail)

/-- The v2 -> v3 migration step of `upgrade_settings`. -/
def v2_to_v3 (sv : List String) : Except MigErr (List String) := do
  let c ← headE sv
  let n ← parseIntE c
  let out ← v2_flag_loop n (sv.drop 1)
  .ok (c :: out)

/-- v3 -> v4, per-measurement loop: copy the nine fields and append the
new `rules_class` default `"1"`. -/
def v3_meas_loop : ℕ → List String → Except MigErr (List String × List String)
  | 0, rest => .ok ([], rest)
  | k + 1, rest => do
      let (out, rest') ← v3_meas_loop k (rest.drop 9)
      .ok (rest.take 9 ++ ["1"] ++ out, rest')

/-- v3 -> v4, per-flag loop. -/
def v3_flag_loop : ℕ → List String → Except MigErr (List String)
  | 0, _ => .ok []
  | k + 1, rest => do
      let mcS ← headE rest
      let mc ← parseIntE mcS
      let (mout, rest') ← v3_meas_loop mc (rest.drop 5)
      let tail ← v3_flag_loop k rest'
      .ok (rest.take 5 ++ mout ++ tail)

/-- The v3 -> v4 migration step of `upgrade_settings`. -/
def v3_to_v4 (sv : List String) : Except MigErr (List String) := do
  let c ← headE sv
  let n ← parseIntE c
  let out ← v3_flag_loop n (sv.drop 1)
  .ok (sv.take 1 ++ out)

/-- The first-underscore split of the legacy flag name: no underscore
puts the whole name in the feature with category `Metadata`. -/
def splitFlagName (new_name : String) : String × String :=
  match new_name.splitOn "_" with
  | [] => ("Metadata", new_name)
  | [_] => ("Metadata", new_name)
  | c :: rest => (c, "_".intercalate rest)

/-- The legacy-import mapping for `from_matlab` revision 1: unpack the
eight legacy fields and build a version-1-shaped list with one flag and
one measurement.  A list of any other length raises (tuple unpacking). -/
def matlab_v1_map (sv : List String) : Except MigErr (List String) :=
  match sv with
  | [image_name, category, feature_num_or_name, min_value, max_value,
     _new_or_append, new_name, _old_name] =>
      let measurement_name :=
        category ++ "_" ++ feature_num_or_name ++ "_" ++ image_name
      let wm := if min_value = "No minimum" then (cps_NO, "0") else (cps_YES, min_value)
      let wx := if max_value = "No maximum" then (cps_NO, "1") else (cps_YES, max_value)
      let fc := splitFlagName new_name
      .ok ["1", "1", fc.1, fc.2, C_ANY, S_IMAGE, cps_NONE,
           measurement_name, wm.1, wm.2, wx.1, wx.2]
  | _ => .error .valueError

/-- The legacy-import mapping for `from_matlab` revision 2 (nine legacy
fields, with a scale folded into the measurement name). -/
def matlab_v2_map (sv : List String) : Except MigErr (List String) :=
  match sv with
  | [image_name, category, feature_num_or_name, scale, min_value, max_value,
     _new_or_append, new_name, _old_name] =>
      let measurement_name :=
        category ++ "_" ++ feature_num_or_name ++ "_" ++ image_name ++ "_" ++ scale
      let wm := if min_value = "No minimum" then (cps_NO, "0") else (cps_YES, min_value)
      let wx := if max_value = "No maximum" then (cps_NO, "1") else (cps_YES, max_value)
      let fc := splitFlagName new_name
      .ok ["1", "1", fc.1, fc.2, C_ANY, S_IMAGE, cps_NONE,
           measurement_name, wm.1, wm.2, wx.1, wx.2]
  | _ => .error .valueError

/-- `FlagImage.upgrade_settings`: the sequential migration chain.  The
legacy-import branch maps a matlab revision 1 or 2 list into the
version-1 shape and clears `from_matlab`; then each version test fires
in turn, so a version-1 list is carried 1 -> 2 -> 3 -> 4. -/
def upgrade_settings (sv0 : List String) (version0 : ℕ) (from_matlab0 : Bool) :
    Except MigErr (List String × ℕ × Bool) := do
  let s1 ←
    if from_matlab0 && (version0 == 1 || version0 == 2) then do
      let sv' ← if version0 == 1 then matlab_v1_map sv0 else matlab_v2_map sv0
      Except.ok (sv', 1, false)
    else Except.ok (sv0, version0, from_matlab0)
  let (sv, version, from_matlab) := s1
  let s2 ←
    if !from_matlab && version == 1 then do
      Except.ok ((← v1_to_v2 sv), 2)
    else Except.ok (sv, version)
  let (sv, version) := s2
  let s3 ←
    if !from_matlab && version == 2 then do
      Except.ok ((← v2_to_v3 sv), 3)
    else Except.ok (sv, version)
  let (sv, version) := s3
  let s4 ←
    if !from_matlab && version == 3 then do
      Except.ok ((← v3_to_v4 sv), 4)
    else Except.ok (sv, version)
  let (sv, version) := s4
  Except.ok (sv, version, from_matlab)

/-- A structured version-1 measurement: the seven per-measurement fields
of the version-1 layout. -/
structure V1Measurement where
  source : String
  object_name : String
  measurement : String
  wants_min : String
  min_value : String
  wants_max : String
  max_value : String
deriving DecidableEq, Repr

/-- The seven version-1 fields of one measurement. -/
def V1Measurement.fields (m : V1Measurement) : List String :=
  [m.source, m.object_name, m.measurement, m.wants_min, m.min_value,
   m.wants_max, m.max_value]

/-- A structured version-1 flag: the three user flag fields plus its
measurements (the measurement count is stored, not declared). -/
structure V1Flag where
  category : String
  feature_name : String
  combination : String
  measurements : List V1Measurement
deriving DecidableEq, Repr

/-- The version-1 fields of one flag: count, category, feature,
combination, then 7 fields per measurement. -/
def V1Flag.fields (f : V1Flag) : List String :=
  [natToString f.measurements.length, f.category, f.feature_name, f.combination] ++
    f.measurements.flatMap V1Measurement.fields

/-- A well-formed version-1 settings list: flag count, then the fields
of each flag. -/
def encodeV1 (flags : List V1Flag) : List String :=
  natToString flags.length :: flags.flatMap V1Flag.fields

/-- The version-2 image of one measurement: source renamed, six fields
copied. -/
def V1Measurement.v2fields (m : V1Measurement) : List String :=
  [renameSource m.source, m.object_name, m.measurement, m.wants_min, m.min_value,
   m.wants_max, m.max_value]

/-- The version-3 image of one measurement: rules defaults appended. -/
def V1Measurement.v3fields (m : V1Measurement) : List String :=
  m.v2fields ++ [default_rules_location, "rules.txt"]

/-- The version-4 image of one measurement: class selection `"1"`
appended. -/
def V1Measurement.v4fields (m : V1Measurement) : List String :=
  m.v3fields ++ ["1"]

/-- The version-2 fields of one flag: `cps.NO` skip default inserted. -/
def V1Flag.v2fields (f : V1Flag) : List String :=
  [natToString f.measurements.length, f.category, f.feature_name, f.combination,
   cps_NO] ++ f.measurements.flatMap V1Measurement.v2fields

/-- The version-3 fields of one flag. -/
def V1Flag.v3fields (f : V1Flag) : List String :=
  [natToString f.measurements.length, f.category, f.feature_name, f.combination,
   cps_NO] ++ f.measurements.flatMap V1Measurement.v3fields

/-- The version-4 fields of one flag. -/
def V1Flag.v4fields (f : V1Flag) : List String :=
  [natToString f.measurements.length, f.category, f.feature_name, f.combination,
   cps_NO] ++ f.measurements.flatMap V1Measurement.v4fields

/-- The version-2 settings list a version-1 list migrates to. -/
def encodeV2 (flags : List V1Flag) : List String :=
  natToString flags.length :: flags.flatMap V1Flag.v2fields

/-- The version-3 settings list. -/
def encodeV3 (flags : List V1Flag) : List String :=
  natToString flags.length :: flags.flatMap V1Flag.v3fields

/-- The version-4 settings list a version-1 list migrates to: every
original value preserved (sources renamed) and the documented defaults
appended. -/
def encodeV4 (flags : List V1Flag) : List String :=
  natToString flags.length :: flags.flatMap V1Flag.v4fields

/-! ## RULES-criterion semantics, claimed and actual -/

/-- The RULES-criterion verdict exactly as the specification claims it:
rows containing any NaN score are discarded, each remaining row is
assigned its arg-max class, `hit_count` counts assigned rows whose class
is in the selected set, the criterion fails when
`hit_count > remaining_rows - hit_count`, and the display uses the
remaining-row count.  (`selections` are the 1-based user class
choices.)  This definition follows the claim wording, for comparison
with the source-derived evaluation. -/
def spec_rules_verdict (scores : List (List Val)) (selections : List ℕ) :
    Bool × DisplayValue :=
  let classes0 : List ℤ := selections.map (fun (x : ℕ) => (x : ℤ) - 1)
  let kept := scores.filter (fun row => row.all (fun v => v.isSome))
  let objclass := kept.map npArgmax
  let hit := (objclass.map (fun (c : ℕ) => classes0.count ((c : ℤ)))).sum
  (decide ((hit : ℤ) > (kept.length : ℤ) - (hit : ℤ)),
   if kept.length > 1 then .ruleCounts hit kept.length else .dashes)

/-- The RULES-criterion verdict the source actually computes: a row is
discarded only when all of its scores are NaN, and both the majority
test and the display use the total row count of the score matrix, not
the kept-row count.  (Stated with the per-class counting order; the
evaluation code counts per row — the equivalence is proved.) -/
def code_rules_verdict (scores : List (List Val)) (selections : List ℕ) :
    Bool × DisplayValue :=
  let classes0 : List ℤ := selections.map (fun (x : ℕ) => (x : ℤ) - 1)
  let kept := scores.filter (fun row => row.any (fun v => v.isSome))
  let objclass : List ℤ := (kept.map npArgmax).map (fun (c : ℕ) => (c : ℤ))
  let hit := (classes0.map (fun k => objclass.count k)).sum
  (decide ((hit : ℤ) > (scores.length : ℤ) - (hit : ℤ)),
   if scores.length > 1 then .ruleCounts hit scores.length else .dashes)

/-! ## Concrete instances used by witnesses and counterexamples -/

/-- A store whose every image measurement is 5 and whose every per-object
vector is empty. -/
def exStore : MeasurementStore := ⟨fun _ => 5, fun _ _ => []⟩

/-- A fresh workspace over `exStore`. -/
def exWorkspace : Workspace := ⟨exStore, [], .dispositionContinue⟩

/-- An environment with no rules files at all. -/
def exEnvMissing : RulesEnv := ⟨fun _ => .missing⟩

/-- IMAGE criterion failing on the high bound (5 > 4). -/
def msFailHigh : MeasurementSetting :=
  ⟨S_IMAGE, "Nuclei", "M", true, 0, true, 4, "rdir", "rules.txt", [1]⟩

/-- IMAGE criterion passing (0 ≤ 5 ≤ 10). -/
def msPass : MeasurementSetting :=
  ⟨S_IMAGE, "Nuclei", "M", true, 0, true, 10, "rdir", "rules.txt", [1]⟩

/-- IMAGE criterion failing on the low bound (5 < 6). -/
def msFailLow : MeasurementSetting :=
  ⟨S_IMAGE, "Nuclei", "M", true, 6, true, 10, "rdir", "rules.txt", [1]⟩

/-- IMAGE criterion whose value sits exactly on both bounds (5 = 5). -/
def msBoundary : MeasurementSetting :=
  ⟨S_IMAGE, "Nuclei", "M", true, 5, true, 5, "rdir", "rules.txt", [1]⟩

/-- AVERAGE_OBJECT criterion over an empty object vector. -/
def msAvgEmpty : MeasurementSetting :=
  ⟨S_AVERAGE_OBJECT, "Nuclei", "M", true, 0, true, 1, "rdir", "rules.txt", [1]⟩

/-- RULES criterion reading `rdir/rules.txt` with class selection 1. -/
def msRulesEx : MeasurementSetting :=
  ⟨S_RULES, "None", "M", true, 0, true, 1, "rdir", "rules.txt", [1]⟩

/-- A flag whose three criteria evaluate to (fail, pass, fail), combined
under the ANY policy. -/
def exFlagFPF : Flag :=
  ⟨"Metadata", "QCFlag", C_ANY, false, [msFailHigh, msPass, msFailLow]⟩

/-- A failing one-criterion flag with `wants_skip` set. -/
def exFlagSkip : Flag := ⟨"Metadata", "QCFlag", C_ANY, true, [msFailHigh]⟩

/-- A failing one-criterion flag without skip. -/
def exFlagC3 : Flag := ⟨"Metadata", "QCFlag", C_ANY, false, [msFailHigh]⟩

/-- A one-criterion RULES flag. -/
def exFlagRules : Flag := ⟨"Metadata", "QCFlag", C_ANY, false, [msRulesEx]⟩

/-- Statistics row of `msFailHigh` over `exStore`. -/
def exStatsFail : Stats := ⟨IMAGE, "M", .rounded3 5, "Fail"⟩

/-- Statistics row of `msPass` over `exStore`. -/
def exStatsPass : Stats := ⟨IMAGE, "M", .rounded3 5, "Pass"⟩

/-- The workspace `run_flag` produces for `exFlagSkip`. -/
def exWorkspaceSkip : Workspace :=
  ⟨exStore, [("Metadata_QCFlag", 1)], .dispositionSkip⟩

/-- The workspace `run_flag` produces for `exFlagC3`. -/
def exWorkspaceC3 : Workspace :=
  ⟨exStore, [("Metadata_QCFlag", 1)], .dispositionContinue⟩

/-- The statistics rows `run_flag` produces for the one-criterion
failing flags. -/
def exStsFail : List (String × Stats) := [("Metadata_QCFlag", exStatsFail)]

/-- A rule set whose score matrix has an all-NaN first row and a clean
second row scoring [0.79, -0.79]. -/
def rsTwoRows : RuleSet :=
  ⟨[⟨IMAGE, "F"⟩], [[none, none], [some (79/100), some (-79/100)]]⟩

/-- Environment in which every path holds `rsTwoRows`. -/
def envTwoRows : RulesEnv := ⟨fun _ => .parsed rsTwoRows⟩

/-- The 1-row, 2-class rule set of the claim example. -/
def rsOneRow : RuleSet := ⟨[⟨IMAGE, "F"⟩], [[some (79/100), some (-79/100)]]⟩

/-- Environment in which every path holds `rsOneRow`. -/
def envOneRow : RulesEnv := ⟨fun _ => .parsed rsOneRow⟩

/-- A structured version-1 flag with one measurement, for the migration
examples. -/
def exV1Flag : V1Flag :=
  ⟨"Metadata", "QCFlag", C_ANY,
   [⟨"Image", "None", "Intensity_MeanIntensity_DNA", "Yes", "0", "Yes", "1"⟩]⟩

/-- A version-1 list with declared counts for 12 fields but 13 fields:
one junk field appended. -/
def exLongList : List String := encodeV1 [exV1Flag] ++ ["EXTRA_JUNK"]

/-- A version-1 list with declared counts for 12 fields but only 11:
the final `maximum_value` field is missing. -/
def exShortList : List String :=
  ["1", "1", "Metadata", "QCFlag", C_ANY, "Image", "None", "M", "Yes", "0", "Yes"]

/-- What `upgrade_settings` silently produces from `exShortList`: the
missing field shifts the layout and the output is one field short of a
well-formed version-4 list, with no error raised. -/
def exShortResult : List String :=
  ["1", "1", "Metadata", "QCFlag", C_ANY, cps_NO, S_IMAGE, "None", "M", "Yes",
   "0", "Yes", default_rules_location, "rules.txt", "1"]

/-! ## Generic reduction lemmas for `Except` binds -/

@[simp]
theorem except_bind_ok {ε α β : Type} (a : α) (f : α → Except ε β) :
    (Bind.bind (Except.ok a) f : Except ε β) = f a := rfl

@[simp]
theorem except_bind_error {ε α β : Type} (e : ε) (f : α → Except ε β) :
    (Bind.bind (Except.error e) f : Except ε β) = .error e := rfl

/-! ## Round-trip of count rendering and parsing -/

theorem parseDigits_append (l1 l2 : List ℕ) (acc : ℕ) :
    parseDigits acc (l1 ++ l2) = parseDigits (parseDigits acc l1) l2 := by
  induction l1 generalizing acc with
  | nil => rfl
  | cons d rest ih => simp [parseDigits, ih]

theorem digitVal_digitChar (d : ℕ) (h : d < 10) : digitVal (digitChar d) = d := by
  interval_cases d <;> decide

theorem isDigitChar_digitChar (d : ℕ) (h : d < 10) :
    isDigitChar (digitChar d) = true := by
  interval_cases d <;> decide

theorem parseDigits_natDigitsRevAux (f : ℕ) :
    ∀ n acc, n ≤ f →
      parseDigits acc (natDigitsRevAux f n).reverse =
        acc * 10 ^ (natDigitsRevAux f n).length + n := by
  induction f with
  | zero =>
      intro n acc hn
      interval_cases n
      simp [natDigitsRevAux, parseDigits]
  | succ f ih =>
      intro n acc hn
      match n with
      | 0 => simp [natDigitsRevAux, parseDigits]
      | m + 1 =>
          have hq : (m + 1) / 10 ≤ f := by
            have := Nat.div_lt_self (Nat.succ_pos m) (by norm_num : 1 < 10)
            omega
          simp only [natDigitsRevAux, List.reverse_cons, parseDigits_append]
          rw [ih ((m + 1) / 10) acc hq]
          simp only [parseDigits, List.length_cons]
          have hdm : 10 * ((m + 1) / 10) + (m + 1) % 10 = m + 1 :=
            Nat.div_add_mod (m + 1) 10
          ring_nf
          omega

theorem natDigitsRevAux_lt10 (f : ℕ) :
    ∀ n d, d ∈ natDigitsRevAux f n → d < 10 := by
  induction f with
  | zero => intro n d hd; simp [natDigitsRevAux] at hd
  | succ f ih =>
      intro n d hd
      match n with
      | 0 => simp [natDigitsRevAux] at hd
      | m + 1 =>
          simp only [natDigitsRevAux, List.mem_cons] at hd
          rcases hd with rfl | hd
          · exact Nat.mod_lt _ (by norm_num)
          · exact ih _ _ hd

theorem natDigitsRevAux_ne_nil (f n : ℕ) (hn : n ≠ 0) (hf : f ≠ 0) :
    natDigitsRevAux f n ≠ [] := by
  match f, n with
  | 0, _ => exact absurd rfl hf
  | _ + 1, 0 => exact absurd rfl hn
  | _ + 1, _ + 1 => simp [natDigitsRevAux]

theorem parseNat_natToString (n : ℕ) : parseNat (natToString n) = some n := by
  match n with
  | 0 => decide
  | m + 1 =>
      have hlt : ∀ d ∈ (natDigitsRevAux (m + 1) (m + 1)).reverse, d < 10 := by
        intro d hd
        exact natDigitsRevAux_lt10 _ _ _ (List.mem_reverse.mp hd)
      have hne : natDigitsRevAux (m + 1) (m + 1) ≠ [] :=
        natDigitsRevAux_ne_nil _ _ (Nat.succ_ne_zero m) (Nat.succ_ne_zero m)
      have hval := parseDigits_natDigitsRevAux (m + 1) (m + 1) 0 le_rfl
      simp only [natToString, if_neg (Nat.succ_ne_zero m)]
      simp only [parseNat, String.data]
      rw [if_pos]
      · rw [List.map_map]
        have hid :
            ((natDigitsRevAux (m + 1) (m + 1)).reverse).map (digitVal ∘ digitChar) =
              ((natDigitsRevAux (m + 1) (m + 1)).reverse).map id :=
          List.map_congr_left (fun d hd => digitVal_digitChar d (hlt d hd))
        rw [hid, List.map_id, hval]
        simp
      · constructor
        · simp only [ne_eq, List.map_eq_nil_iff, List.reverse_eq_nil_iff]
          exact hne
        · apply List.all_eq_true.mpr
          intro c hc
          obtain ⟨d, hd, rfl⟩ := List.mem_map.mp hc
          exact isDigitChar_digitChar d (hlt d hd)

theorem parseIntE_natToString (n : ℕ) : parseIntE (natToString n) = .ok n := by
  simp [parseIntE, parseNat_natToString]

/-! ## Stage lemmas: well-formed version-1 lists migrate exactly -/

theorem v1_meas_loop_encode (ms : List V1Measurement) (rest : List String) :
    v1_meas_loop ms.length (ms.flatMap V1Measurement.fields ++ rest) =
      .ok (ms.flatMap V1Measurement.v2fields, rest) := by
  induction ms with
  | nil => simp [v1_meas_loop]
  | cons m tail ih =>
      simp [v1_meas_loop, V1Measurement.fields, V1Measurement.v2fields, headE, ih]

theorem v1_flag_loop_encode (fl : List V1Flag) (junk : List String) :
    v1_flag_loop fl.length (fl.flatMap V1Flag.fields ++ junk) =
      .ok (fl.flatMap V1Flag.v2fields) := by
  induction fl with
  | nil => simp [v1_flag_loop]
  | cons f tail ih =>
      simp [v1_flag_loop, V1Flag.fields, V1Flag.v2fields, headE,
            parseIntE_natToString, v1_meas_loop_encode, ih, List.append_assoc]

theorem v1_to_v2_encode (fl : List V1Flag) (junk : List String) :
    v1_to_v2 (encodeV1 fl ++ junk) = .ok (encodeV2 fl) := by
  simp [v1_to_v2, encodeV1, encodeV2, headE, parseIntE_natToString,
        v1_flag_loop_encode]

theorem v2_meas_loop_encode (ms : List V1Measurement) (rest : List String) :
    v2_meas_loop ms.length (ms.flatMap V1Measurement.v2fields ++ rest) =
      .ok (ms.flatMap V1Measurement.v3fields, rest) := by
  induction ms with
  | nil => simp [v2_meas_loop]
  | cons m tail ih =>
      simp [v2_meas_loop, V1Measurement.v2fields, V1Measurement.v3fields, headE, ih]

theorem v2_flag_loop_encode (fl : List V1Flag) (junk : List String) :
    v2_flag_loop fl.length (fl.flatMap V1Flag.v2fields ++ junk) =
      .ok (fl.flatMap V1Flag.v3fields) := by
  induction fl with
  | nil => simp [v2_flag_loop]
  | cons f tail ih =>
      simp [v2_flag_loop, V1Flag.v2fields, V1Flag.v3fields, headE,
            parseIntE_natToString, v2_meas_loop_encode, ih, List.append_assoc]

theorem v2_to_v3_encode (fl : List V1Flag) (junk : List String) :
    v2_to_v3 (encodeV2 fl ++ junk) = .ok (encodeV3 fl) := by
  simp [v2_to_v3, encodeV2, encodeV3, headE, parseIntE_natToString,
        v2_flag_loop_encode]

theorem v3_meas_loop_encode (ms : List V1Measurement) (rest : List String) :
    v3_meas_loop ms.length (ms.flatMap V1Measurement.v3fields ++ rest) =
      .ok (ms.flatMap V1Measurement.v4fields, rest) := by
  induction ms with
  | nil => simp [v3_meas_loop]
  | cons m tail ih =>
      simp [v3_meas_loop, V1Measurement.v2fields, V1Measurement.v3fields,
            V1Measurement.v4fields, ih]

theorem v3_flag_loop_encode (fl : List V1Flag) (junk : List String) :
    v3_flag_loop fl.length (fl.flatMap V1Flag.v3fields ++ junk) =
      .ok (fl.flatMap V1Flag.v4fields) := by
  induction fl with
  | nil => simp [v3_flag_loop]
  | cons f tail ih =>
      simp [v3_flag_loop, V1Flag.v3fields, V1Flag.v4fields, headE,
            parseIntE_natToString, v3_meas_loop_encode, ih, List.append_assoc]

theorem v3_to_v4_encode (fl : List V1Flag) (junk : List String) :
    v3_to_v4 (encodeV3 fl ++ junk) = .ok (encodeV4 fl) := by
  simp [v3_to_v4, encodeV3, encodeV4, headE, parseIntE_natToString,
        v3_flag_loop_encode]

/-- The whole chain on a well-formed version-1 list, tolerating (and
silently discarding) any trailing junk after the declared fields. -/
theorem upgrade_settings_encodeV1 (fl : List V1Flag) (junk : List String) :
    upgrade_settings (encodeV1 fl ++ junk) 1 false = .ok (encodeV4 fl, 4, false) := by
  have h2 := v1_to_v2_encode fl junk
  have h3 := v2_to_v3_encode fl []
  have h4 := v3_to_v4_encode fl []
  rw [List.append_nil] at h3 h4
  simp [upgrade_settings, h2, h3, h4]

/-! ## Structure of `run_flag` results -/

theorem run_flag_spec (env : RulesEnv) (w : Workspace) (flag : Flag)
    (w' : Workspace) (sts : List (String × Stats))
    (h : run_flag env w flag = .ok (w', sts)) :
    ∃ ok : Bool, flag_verdict env w flag = .ok ok ∧
      w'.image_written =
        (measurement_name flag, if ok then (0 : ℤ) else 1) :: w.image_written ∧
      w'.disposition =
        (if !ok && flag.wants_skip then Disposition.dispositionSkip
         else w.disposition) ∧
      w'.measurements = w.measurements := by
  cases hms : flag.measurement_settings with
  | nil => rw [run_flag, hms, run_flag_aux] at h; exact absurd h (by simp)
  | cons m0 rest =>
      rw [run_flag, hms, run_flag_aux] at h
      cases h0 : eval_measurement env w m0 with
      | error e => rw [h0] at h; exact absurd h (by simp)
      | ok p =>
          obtain ⟨ok0, st0⟩ := p
          rw [h0] at h
          simp only [except_bind_ok] at h
          cases hl : eval_loop env w flag.combination_choice ok0 rest with
          | error e => rw [hl] at h; exact absurd h (by simp)
          | ok q =>
              obtain ⟨okf, stl⟩ := q
              rw [hl] at h
              simp only [except_bind_ok, Except.ok.injEq, Prod.mk.injEq] at h
              obtain ⟨hw', hsts⟩ := h
              refine ⟨okf, ?_, ?_, ?_, ?_⟩
              · rw [flag_verdict, hms, flag_verdict_aux, h0]
                simp only [except_bind_ok]
                rw [hl]
                rfl
              · rw [← hw']
              · rw [← hw']
              · rw [← hw']

/-! ## The combination loop computes a literal fold -/

theorem eval_loop_all (env : RulesEnv) (w : Workspace) :
    ∀ (rest : List MeasurementSetting) (ok : Bool) (ps : List (Bool × Stats)),
      eval_all env w rest = .ok ps →
      eval_loop env w C_ALL ok rest =
        .ok ((ps.map Prod.fst).foldl (fun a b => a || b) ok, ps.map Prod.snd) := by
  intro rest
  induction rest with
  | nil =>
      intro ok ps h
      simp only [eval_all, Except.ok.injEq] at h
      subst h
      simp [eval_loop]
  | cons ms rest ih =>
      intro ok ps h
      simp only [eval_all] at h
      cases hm : eval_measurement env w ms with
      | error e => rw [hm] at h; exact absurd h (by simp)
      | ok p =>
          rw [hm] at h
          simp only [except_bind_ok] at h
          cases hr : eval_all env w rest with
          | error e => rw [hr] at h; exact absurd h (by simp)
          | ok ps' =>
              rw [hr] at h
              simp only [except_bind_ok, Except.ok.injEq] at h
              subst h
              rw [eval_loop, hm]
              simp only [except_bind_ok]
              rw [show combine C_ALL ok p.1 = .ok (ok || p.1) from by
                    simp [combine]]
              simp only [except_bind_ok]
              rw [ih _ _ hr]
              simp

theorem eval_loop_any (env : RulesEnv) (w : Workspace) :
    ∀ (rest : List MeasurementSetting) (ok : Bool) (ps : List (Bool × Stats)),
      eval_all env w rest = .ok ps →
      eval_loop env w C_ANY ok rest =
        .ok ((ps.map Prod.fst).foldl (fun a b => a && b) ok, ps.map Prod.snd) := by
  intro rest
  induction rest with
  | nil =>
      intro ok ps h
      simp only [eval_all, Except.ok.injEq] at h
      subst h
      simp [eval_loop]
  | cons ms rest ih =>
      intro ok ps h
      simp only [eval_all] at h
      cases hm : eval_measurement env w ms with
      | error e => rw [hm] at h; exact absurd h (by simp)
      | ok p =>
          rw [hm] at h
          simp only [except_bind_ok] at h
          cases hr : eval_all env w rest with
          | error e => rw [hr] at h; exact absurd h (by simp)
          | ok ps' =>
              rw [hr] at h
              simp only [except_bind_ok, Except.ok.injEq] at h
              subst h
              rw [eval_loop, hm]
              simp only [except_bind_ok]
              rw [show combine C_ANY ok p.1 = .ok (ok && p.1) from by
                    simp [combine, C_ANY, C_ALL]]
              simp only [except_bind_ok]
              rw [ih _ _ hr]
              simp

/-! ## Validation structure -/

theorem validate_ms_ok_of_good (env : RulesEnv) (cols : List String)
    (ms : MeasurementSetting) (h : rules_setting_bad env cols ms = false) :
    validate_ms env cols ms = .ok () := by
  rw [validate_ms, get_rules]
  rw [rules_setting_bad] at h
  by_cases hs : ms.source_choice = S_RULES
  · rw [if_pos hs] at h ⊢
    generalize hfs : env.fs (rules_path ms) = fs0 at h ⊢
    cases fs0 with
    | missing => simp at h
    | unreadable => simp at h
    | parsed rs =>
        simp only [] at h ⊢
        by_cases h1 : rs.rules.all (fun r => r.object_name = IMAGE) = true
        · rw [if_pos h1] at h
          simp only [Bool.not_eq_false', decide_eq_true_eq] at h
          simp only [h1, Bool.not_true, Bool.false_eq_true, if_false]
          rw [h]
        · rw [if_neg h1] at h
          simp at h
  · rw [if_neg hs] at h ⊢

theorem validate_ms_error_of_bad (env : RulesEnv) (cols : List String)
    (ms : MeasurementSetting) (h : rules_setting_bad env cols ms = true) :
    ∃ msg, validate_ms env cols ms =
      .error (.validationError msg ms.rules_file_name) := by
  rw [validate_ms, get_rules]
  rw [rules_setting_bad] at h
  by_cases hs : ms.source_choice = S_RULES
  · rw [if_pos hs] at h ⊢
    generalize hfs : env.fs (rules_path ms) = fs0 at h ⊢
    cases fs0 with
    | missing => exact ⟨_, rfl⟩
    | unreadable => exact ⟨_, rfl⟩
    | parsed rs =>
        simp only [] at h ⊢
        by_cases h1 : rs.rules.all (fun r => r.object_name = IMAGE) = true
        · rw [if_pos h1] at h
          simp only [Bool.not_eq_true', decide_eq_false_iff_not] at h
          cases hf : (rs.rules.map Rule.feature).filter (fun f => !(cols.contains f)) with
          | nil => exact absurd hf h
          | cons f fs =>
              refine ⟨"The rule described by " ++ f ++
                " has not been measured earlier in the pipeline.", ?_⟩
              simp only [h1, Bool.not_true, Bool.false_eq_true, if_false]
        · refine ⟨"The rules listed in " ++ ms.rules_file_name ++
            " describe objects instead of images.", ?_⟩
          simp only [Bool.not_eq_true] at h1
          simp only [h1, Bool.not_false, if_true]
  · rw [if_neg hs] at h
    simp at h

theorem validate_list_error_of_bad (env : RulesEnv) (cols : List String) :
    ∀ l : List MeasurementSetting,
      (∃ ms ∈ l, rules_setting_bad env cols ms = true) →
      ∃ msg ms, ms ∈ l ∧ rules_setting_bad env cols ms = true ∧
        validate_list env cols l =
          .error (.validationError msg ms.rules_file_name) := by
  intro l
  induction l with
  | nil => intro h; simp at h
  | cons ms rest ih =>
      intro h
      by_cases hb : rules_setting_bad env cols ms = true
      · obtain ⟨msg, hmsg⟩ := validate_ms_error_of_bad env cols ms hb
        exact ⟨msg, ms, List.mem_cons_self ms rest, hb,
          by rw [validate_list, hmsg]; rfl⟩
      · have hok := validate_ms_ok_of_good env cols ms (by
          cases hval : rules_setting_bad env cols ms
          · rfl
          · exact absurd hval hb)
        have hrest : ∃ ms' ∈ rest, rules_setting_bad env cols ms' = true := by
          obtain ⟨m, hm, hbad⟩ := h
          rcases List.mem_cons.mp hm with rfl | hm'
          · exact absurd hbad hb
          · exact ⟨m, hm', hbad⟩
        obtain ⟨msg, ms', hmem, hbad', heq⟩ := ih hrest
        exact ⟨msg, ms', List.mem_cons_of_mem ms hmem, hbad',
          by rw [validate_list, hok]; simpa using heq⟩

theorem validate_list_ok_of_good (env : RulesEnv) (cols : List String) :
    ∀ l : List MeasurementSetting,
      (∀ ms ∈ l, rules_setting_bad env cols ms = false) →
      validate_list env cols l = .ok () := by
  intro l
  induction l with
  | nil => intro _; rfl
  | cons ms rest ih =>
      intro h
      rw [validate_list, validate_ms_ok_of_good env cols ms (h ms (by simp))]
      simpa using ih (fun m hm => h m (List.mem_cons_of_mem ms hm))

theorem validate_module_error_of_bad (env : RulesEnv) (cols : List String) :
    ∀ flags : List Flag,
      (∃ flag ∈ flags, ∃ ms ∈ flag.measurement_settings,
        rules_setting_bad env cols ms = true) →
      ∃ msg flag ms, flag ∈ flags ∧ ms ∈ flag.measurement_settings ∧
        rules_setting_bad env cols ms = true ∧ ms.source_choice = S_RULES ∧
        validate_module env cols flags =
          .error (.validationError msg ms.rules_file_name) := by
  intro flags
  induction flags with
  | nil => intro h; simp at h
  | cons flag rest ih =>
      intro h
      by_cases hb : ∃ ms ∈ flag.measurement_settings,
          rules_setting_bad env cols ms = true
      · obtain ⟨msg, ms, hmem, hbad, heq⟩ :=
          validate_list_error_of_bad env cols flag.measurement_settings hb
        refine ⟨msg, flag, ms, List.mem_cons_self flag rest, hmem, hbad, ?_, ?_⟩
        · by_contra hns
          rw [rules_setting_bad, if_neg hns] at hbad
          exact absurd hbad (by simp)
        · rw [validate_module, heq]
          rfl
      · have hgood : ∀ ms ∈ flag.measurement_settings,
            rules_setting_bad env cols ms = false := by
          intro ms hm
          cases hval : rules_setting_bad env cols ms
          · rfl
          · exact absurd ⟨ms, hm, hval⟩ hb
        have hrest : ∃ flag' ∈ rest, ∃ ms ∈ flag'.measurement_settings,
            rules_setting_bad env cols ms = true := by
          obtain ⟨fl, hfl, hms⟩ := h
          rcases List.mem_cons.mp hfl with rfl | hfl'
          · exact absurd hms hb
          · exact ⟨fl, hfl', hms⟩
        obtain ⟨msg, fl', ms', hfl', hmem', hbad', hsrc', heq'⟩ := ih hrest
        refine ⟨msg, fl', ms', List.mem_cons_of_mem flag hfl', hmem', hbad',
          hsrc', ?_⟩
        rw [validate_module,
          validate_list_ok_of_good env cols flag.measurement_settings hgood]
        simpa using heq'

/-! ## Counting pairs row-major and class-major agree -/

theorem sum_map_add_nat {α : Type} (f g : α → ℕ) :
    ∀ l : List α, (l.map (fun x => f x + g x)).sum = (l.map f).sum + (l.map g).sum := by
  intro l
  induction l with
  | nil => rfl
  | cons x xs ih => simp [ih]; omega

theorem count_as_ite_sum (A : List ℤ) (b : ℤ) :
    (A.map (fun a => if a = b then (1 : ℕ) else 0)).sum = A.count b := by
  induction A with
  | nil => rfl
  | cons a A ih =>
      simp only [List.map_cons, List.sum_cons, List.count_cons, ih, beq_iff_eq]
      by_cases hab : a = b
      · subst hab
        simp only [if_pos rfl]
        omega
      · simp only [if_neg hab, if_neg (Ne.symm hab)]
        omega

theorem sum_count_swap (A B : List ℤ) :
    (A.map (fun a => B.count a)).sum = (B.map (fun b => A.count b)).sum := by
  induction B with
  | nil => simp
  | cons b B ih =>
      simp only [List.map_cons, List.sum_cons]
      have hsplit :
          (A.map (fun a => (b :: B).count a)).sum =
            (A.map (fun a => B.count a)).sum +
              (A.map (fun a => if a = b then (1 : ℕ) else 0)).sum := by
        rw [← sum_map_add_nat (fun a => B.count a)
              (fun a => if a = b then (1 : ℕ) else 0) A]
        congr 1
        apply List.map_congr_left
        intro a _
        rw [List.count_cons]
        by_cases hab : a = b
        · subst hab; simp
        · simp [hab, Ne.symm hab]
      rw [hsplit, count_as_ite_sum, ih]
      omega

/-! ## Evaluation of non-RULES criteria -/

theorem nonrules_ne_S_RULES (ms : MeasurementSetting)
    (hsc : ms.source_choice = S_IMAGE ∨ ms.source_choice = S_AVERAGE_OBJECT ∨
           ms.source_choice = S_ALL_OBJECTS) :
    ms.source_choice ≠ S_RULES := by
  rcases hsc with h | h | h <;> rw [h] <;> decide

theorem branch_eval_ok_nonrules (env : RulesEnv) (w : Workspace)
    (ms : MeasurementSetting)
    (hsc : ms.source_choice = S_IMAGE ∨ ms.source_choice = S_AVERAGE_OBJECT ∨
           ms.source_choice = S_ALL_OBJECTS) :
    ∃ b, branch_eval env w ms = .ok b := by
  rcases hsc with h | h | h
  · exact ⟨_, by rw [branch_eval, if_pos h]⟩
  · rw [branch_eval, if_neg (by rw [h]; decide), if_pos h]
    cases hd : w.measurements.objectData ms.object_name ms.measurement with
    | nil => exact ⟨_, rfl⟩
    | cons d ds => exact ⟨_, rfl⟩
  · rw [branch_eval, if_neg (by rw [h]; decide), if_neg (by rw [h]; decide),
      if_pos h]
    cases hd : w.measurements.objectData ms.object_name ms.measurement with
    | nil => exact ⟨_, rfl⟩
    | cons d ds => exact ⟨_, rfl⟩

theorem eval_measurement_nonrules (env : RulesEnv) (w : Workspace)
    (ms : MeasurementSetting) (h : ms.source_choice ≠ S_RULES)
    (b : BranchOut) (hb : branch_eval env w ms = .ok b) :
    eval_measurement env w ms = .ok
      (!(b.fail ||
         (ms.wants_minimum && vlt b.min_value (some ms.minimum_value)) ||
         (ms.wants_maximum && vlt (some ms.maximum_value) b.max_value)),
       ⟨b.source, ms.measurement, b.display,
        if (b.fail ||
            (ms.wants_minimum && vlt b.min_value (some ms.minimum_value)) ||
            (ms.wants_maximum && vlt (some ms.maximum_value) b.max_value))
        then "Fail" else "Pass"⟩) := by
  rw [eval_measurement, hb]
  simp only [except_bind_ok]
  simp [h]

/-! ## Evaluation of RULES criteria -/

theorem branch_eval_rules (env : RulesEnv) (w : Workspace)
    (ms : MeasurementSetting) (rs : RuleSet)
    (hs : ms.source_choice = S_RULES)
    (hfs : env.fs (rules_path ms) = .parsed rs) :
    branch_eval env w ms = .ok
      ⟨decide
          (((((rs.score.filter (fun row => row.any (fun v => v.isSome))).map
                npArgmax).map
              (fun (c : ℕ) => (ms.rules_class.map (fun (x : ℕ) => (x : ℤ) - 1)).count
                ((c : ℤ)))).sum : ℤ) >
            (rs.score.length : ℤ) -
              ((((rs.score.filter (fun row => row.any (fun v => v.isSome))).map
                    npArgmax).map
                  (fun (c : ℕ) => (ms.rules_class.map (fun (x : ℕ) => (x : ℤ) - 1)).count
                    ((c : ℤ)))).sum : ℤ)),
       none, none,
       (if rs.score.length > 1 then
          DisplayValue.ruleCounts
            ((((rs.score.filter (fun row => row.any (fun v => v.isSome))).map
                  npArgmax).map
                (fun (c : ℕ) => (ms.rules_class.map (fun (x : ℕ) => (x : ℤ) - 1)).count
                  ((c : ℤ)))).sum)
            rs.score.length
        else DisplayValue.dashes),
       IMAGE⟩ := by
  rw [branch_eval, if_neg (by rw [hs]; decide), if_neg (by rw [hs]; decide),
    if_neg (by rw [hs]; decide), if_pos hs, get_rules, hfs]
  rfl

theorem eval_measurement_rules (env : RulesEnv) (w : Workspace)
    (ms : MeasurementSetting) (rs : RuleSet)
    (hs : ms.source_choice = S_RULES)
    (hfs : env.fs (rules_path ms) = .parsed rs) :
    eval_measurement env w ms = .ok
      (!(code_rules_verdict rs.score ms.rules_class).1,
       ⟨IMAGE, "Rules", (code_rules_verdict rs.score ms.rules_class).2,
        if (code_rules_verdict rs.score ms.rules_class).1 then "Fail"
        else "Pass"⟩) := by
  have hhit :
      ((((rs.score.filter (fun row => row.any (fun v => v.isSome))).map
            npArgmax).map
          (fun (c : ℕ) => (ms.rules_class.map (fun (x : ℕ) => (x : ℤ) - 1)).count
            ((c : ℤ)))).sum) =
      ((ms.rules_class.map (fun (x : ℕ) => (x : ℤ) - 1)).map
        (fun k =>
          ((((rs.score.filter (fun row => row.any (fun v => v.isSome))).map
              npArgmax).map (fun (c : ℕ) => (c : ℤ))).count k))).sum := by
    have hswap := sum_count_swap
      (((rs.score.filter (fun row => row.any (fun v => v.isSome))).map
          npArgmax).map (fun (c : ℕ) => (c : ℤ)))
      (ms.rules_class.map (fun (x : ℕ) => (x : ℤ) - 1))
    rw [List.map_map] at hswap
    exact hswap
  rw [eval_measurement, branch_eval_rules env w ms rs hs hfs]
  simp only [except_bind_ok]
  have hne : decide (ms.source_choice ≠ S_RULES) = false := by simp [hs]
  have heq : decide (ms.source_choice = S_RULES) = true := by simp [hs]
  simp only [hne, heq, Bool.false_and, Bool.true_and, Bool.false_or,
    code_rules_verdict, hs]
  rw [hhit]
  simp

/-! ## Concrete RULES evaluations -/

theorem cmp_pos_neg : ¬((79 : ℚ)/100 < -79/100) := by
  rw [not_lt]
  norm_num

theorem argmax_pos_neg :
    npArgmax [some ((79 : ℚ)/100), some (-79/100)] = 0 := by
  rw [npArgmax, npArgmaxAux]
  rw [if_neg]
  · rfl
  · simp [vlt, cmp_pos_neg]

theorem code_rules_verdict_oneRow :
    code_rules_verdict rsOneRow.score [1] = (true, .dashes) := by
  rw [code_rules_verdict, rsOneRow]
  simp [argmax_pos_neg]

theorem code_rules_verdict_twoRows :
    code_rules_verdict rsTwoRows.score [1] = (false, .ruleCounts 1 2) := by
  rw [code_rules_verdict, rsTwoRows]
  simp [argmax_pos_neg]

theorem spec_rules_verdict_twoRows :
    spec_rules_verdict rsTwoRows.score [1] = (true, .dashes) := by
  rw [spec_rules_verdict, rsTwoRows]
  simp [argmax_pos_neg]

/-! ## Claims -/

/-- C1: for every flag with two or more criteria, `run_flag` combines the
per-criterion pass booleans left to right as `ok = ok OR ok_1` under the
ALL policy ("Flag if all fail") and `ok = ok AND ok_1` under the ANY
policy ("Flag if any fail"); in particular three criteria evaluating to
(fail, pass, fail) under ANY yield aggregate ok = false. -/
theorem C1_flag_aggregator_combination
    (env : RulesEnv) (w : Workspace) (flag : Flag)
    (m0 : MeasurementSetting) (rest : List MeasurementSetting)
    (ok0 : Bool) (st0 : Stats) (ps : List (Bool × Stats))
    (hms : flag.measurement_settings = m0 :: rest)
    (h0 : eval_measurement env w m0 = .ok (ok0, st0))
    (hr : eval_all env w rest = .ok ps) :
    (flag.combination_choice = C_ALL →
      flag_verdict env w flag =
        .ok ((ps.map Prod.fst).foldl (fun ok ok_1 => ok || ok_1) ok0)) ∧
    (flag.combination_choice = C_ANY →
      flag_verdict env w flag =
        .ok ((ps.map Prod.fst).foldl (fun ok ok_1 => ok && ok_1) ok0)) ∧
    ((eval_all exEnvMissing exWorkspace exFlagFPF.measurement_settings).map
        (fun l => l.map Prod.fst) = .ok [false, true, false]) ∧
    exFlagFPF.combination_choice = C_ANY ∧
    flag_verdict exEnvMissing exWorkspace exFlagFPF = .ok false := by
  refine ⟨?_, ?_, rfl, rfl, rfl⟩
  · intro hcomb
    rw [flag_verdict, hms, flag_verdict_aux, h0]
    simp only [except_bind_ok]
    rw [hcomb, eval_loop_all env w rest ok0 ps hr]
    rfl
  · intro hcomb
    rw [flag_verdict, hms, flag_verdict_aux, h0]
    simp only [except_bind_ok]
    rw [hcomb, eval_loop_any env w rest ok0 ps hr]
    rfl

/-- Witness for C1 at the three-criterion (fail, pass, fail) ANY flag. -/
theorem C1_flag_aggregator_combination_witness :
    (exFlagFPF.combination_choice = C_ALL →
      flag_verdict exEnvMissing exWorkspace exFlagFPF =
        .ok ((([((true : Bool), exStatsPass), ((false : Bool), exStatsFail)]).map
            Prod.fst).foldl (fun ok ok_1 => ok || ok_1) false)) ∧
    (exFlagFPF.combination_choice = C_ANY →
      flag_verdict exEnvMissing exWorkspace exFlagFPF =
        .ok ((([((true : Bool), exStatsPass), ((false : Bool), exStatsFail)]).map
            Prod.fst).foldl (fun ok ok_1 => ok && ok_1) false)) ∧
    ((eval_all exEnvMissing exWorkspace exFlagFPF.measurement_settings).map
        (fun l => l.map Prod.fst) = .ok [false, true, false]) ∧
    exFlagFPF.combination_choice = C_ANY ∧
    flag_verdict exEnvMissing exWorkspace exFlagFPF = .ok false :=
  C1_flag_aggregator_combination exEnvMissing exWorkspace exFlagFPF
    msFailHigh [msPass, msFailLow] false exStatsFail
    [(true, exStatsPass), (false, exStatsFail)] rfl rfl rfl

/-- C2: for every completed flag evaluation, `run_flag` writes exactly
one image-level measurement named category`_`featurename, with value 0
if the aggregate ok is true and 1 otherwise (so always exactly 0 or 1,
never NaN and never absent), and when ok is false and `wants_skip` is
set, the skip-remainder disposition is raised. -/
theorem C2_flag_measurement_write
    (env : RulesEnv) (w : Workspace) (flag : Flag)
    (w' : Workspace) (sts : List (String × Stats))
    (h : run_flag env w flag = .ok (w', sts)) :
    ∃ ok : Bool, flag_verdict env w flag = .ok ok ∧
      w'.image_written =
        (measurement_name flag, if ok then (0 : ℤ) else 1) :: w.image_written ∧
      ((if ok then (0 : ℤ) else 1) = 0 ∨ (if ok then (0 : ℤ) else 1) = 1) ∧
      ((if ok then (0 : ℤ) else 1) = 0 ↔ ok = true) ∧
      (ok = false → flag.wants_skip = true →
        w'.disposition = .dispositionSkip) := by
  obtain ⟨ok, hv, hw, hd, _⟩ := run_flag_spec env w flag w' sts h
  refine ⟨ok, hv, hw, ?_, ?_, ?_⟩
  · cases ok <;> simp
  · cases ok <;> simp
  · intro h1 h2
    subst h1
    rw [hd]
    simp [h2]

/-- Witness for C2 at a failing one-criterion flag with skip enabled. -/
theorem C2_flag_measurement_write_witness :
    ∃ ok : Bool, flag_verdict exEnvMissing exWorkspace exFlagSkip = .ok ok ∧
      exWorkspaceSkip.image_written =
        (measurement_name exFlagSkip, if ok then (0 : ℤ) else 1) ::
          exWorkspace.image_written ∧
      ((if ok then (0 : ℤ) else 1) = 0 ∨ (if ok then (0 : ℤ) else 1) = 1) ∧
      ((if ok then (0 : ℤ) else 1) = 0 ↔ ok = true) ∧
      (ok = false → exFlagSkip.wants_skip = true →
        exWorkspaceSkip.disposition = .dispositionSkip) :=
  C2_flag_measurement_write exEnvMissing exWorkspace exFlagSkip
    exWorkspaceSkip exStsFail rfl

/-- C3 counterexample: at a flag whose single criterion fails (image is
flagged), the written measurement value is 1, not 0, so "0 when flagged"
is false of the code. -/
theorem C3_polarity_counterexample :
    flag_verdict exEnvMissing exWorkspace exFlagC3 = .ok false ∧
    run_flag exEnvMissing exWorkspace exFlagC3 = .ok (exWorkspaceC3, exStsFail) ∧
    exWorkspaceC3.image_written = [("Metadata_QCFlag", (1 : ℤ))] ∧
    (1 : ℤ) ≠ 0 :=
  ⟨rfl, rfl, rfl, by decide⟩

/-- C3 amended: the emitted integer measurement has value 1 when the
image is flagged (the aggregate ok is false) and value 0 when the image
did not meet the criteria (the aggregate ok is true) — the opposite
polarity of the claim. -/
theorem C3_polarity_amended
    (env : RulesEnv) (w : Workspace) (flag : Flag)
    (w' : Workspace) (sts : List (String × Stats))
    (h : run_flag env w flag = .ok (w', sts)) :
    ∃ ok : Bool, flag_verdict env w flag = .ok ok ∧
      (w'.image_written.head? = some (measurement_name flag, (1 : ℤ)) ↔
        ok = false) ∧
      (w'.image_written.head? = some (measurement_name flag, (0 : ℤ)) ↔
        ok = true) := by
  obtain ⟨ok, hv, hw, _, _⟩ := run_flag_spec env w flag w' sts h
  refine ⟨ok, hv, ?_, ?_⟩ <;> rw [hw] <;> cases ok <;> simp

/-- Witness for the amended C3 at the failing one-criterion flag. -/
theorem C3_polarity_amended_witness :
    ∃ ok : Bool, flag_verdict exEnvMissing exWorkspace exFlagC3 = .ok ok ∧
      (exWorkspaceC3.image_written.head? =
          some (measurement_name exFlagC3, (1 : ℤ)) ↔ ok = false) ∧
      (exWorkspaceC3.image_written.head? =
          some (measurement_name exFlagC3, (0 : ℤ)) ↔ ok = true) :=
  C3_polarity_amended exEnvMissing exWorkspace exFlagC3
    exWorkspaceC3 exStsFail rfl

/-- C4: for every non-RULES criterion, the criterion fails exactly when
the branch fail flag was set (empty data) or an enabled minimum bound
has `min < minimum_value` or an enabled maximum bound has
`max > maximum_value`; both comparisons are strict, so a value exactly
equal to a bound (with the other bound satisfied) passes. -/
theorem C4_threshold_semantics (env : RulesEnv) (w : Workspace)
    (ms : MeasurementSetting)
    (hsc : ms.source_choice = S_IMAGE ∨ ms.source_choice = S_AVERAGE_OBJECT ∨
           ms.source_choice = S_ALL_OBJECTS) :
    ∃ (b : BranchOut) (p : Bool) (st : Stats),
      branch_eval env w ms = .ok b ∧
      eval_measurement env w ms = .ok (p, st) ∧
      (p = false ↔
        (b.fail = true ∨
         (ms.wants_minimum = true ∧
          vlt b.min_value (some ms.minimum_value) = true) ∨
         (ms.wants_maximum = true ∧
          vlt (some ms.maximum_value) b.max_value = true))) ∧
      (∀ v : ℚ, b.fail = false → b.min_value = some v → b.max_value = some v →
        ms.minimum_value ≤ v → v ≤ ms.maximum_value → p = true) := by
  obtain ⟨b, hb⟩ := branch_eval_ok_nonrules env w ms hsc
  have hne := nonrules_ne_S_RULES ms hsc
  have hev := eval_measurement_nonrules env w ms hne b hb
  refine ⟨b, _, _, hb, hev, ?_, ?_⟩
  · cases hbf : b.fail <;> cases hwm : ms.wants_minimum <;>
      cases hwx : ms.wants_maximum <;>
      cases hv1 : vlt b.min_value (some ms.minimum_value) <;>
      cases hv2 : vlt (some ms.maximum_value) b.max_value <;> simp
  · intro v hbf hmin hmax h1 h2
    have hv1 : vlt b.min_value (some ms.minimum_value) = false := by
      rw [hmin]
      simp only [vlt, decide_eq_false_iff_not]
      exact not_lt.mpr h1
    have hv2 : vlt (some ms.maximum_value) b.max_value = false := by
      rw [hmax]
      simp only [vlt, decide_eq_false_iff_not]
      exact not_lt.mpr h2
    simp [hbf, hv1, hv2]

/-- Witness for C4 at an IMAGE criterion whose value 5 sits exactly on
both bounds (minimum 5, maximum 5), with the concrete boundary pass. -/
theorem C4_threshold_semantics_witness :
    (∃ (b : BranchOut) (p : Bool) (st : Stats),
      branch_eval exEnvMissing exWorkspace msBoundary = .ok b ∧
      eval_measurement exEnvMissing exWorkspace msBoundary = .ok (p, st) ∧
      (p = false ↔
        (b.fail = true ∨
         (msBoundary.wants_minimum = true ∧
          vlt b.min_value (some msBoundary.minimum_value) = true) ∨
         (msBoundary.wants_maximum = true ∧
          vlt (some msBoundary.maximum_value) b.max_value = true))) ∧
      (∀ v : ℚ, b.fail = false → b.min_value = some v → b.max_value = some v →
        msBoundary.minimum_value ≤ v → v ≤ msBoundary.maximum_value →
        p = true)) ∧
    eval_measurement exEnvMissing exWorkspace msBoundary =
      .ok (true, exStatsPass) :=
  ⟨C4_threshold_semantics exEnvMissing exWorkspace msBoundary (Or.inl rfl), rfl⟩

/-- C5: for every AVERAGE_OBJECT or ALL_OBJECTS criterion evaluated on an
empty per-object vector, evaluation does not throw: it returns a Fail
verdict with display "No objects" and NaN (none) min and max, regardless
of the threshold settings. -/
theorem C5_empty_objects (env : RulesEnv) (w : Workspace)
    (ms : MeasurementSetting)
    (hsc : ms.source_choice = S_AVERAGE_OBJECT ∨
           ms.source_choice = S_ALL_OBJECTS)
    (hdata : w.measurements.objectData ms.object_name ms.measurement = []) :
    branch_eval env w ms = .ok
      ⟨true, none, none, .noObjects,
       if ms.source_choice = S_AVERAGE_OBJECT then "Ave. " ++ ms.object_name
       else ms.object_name⟩ ∧
    eval_measurement env w ms = .ok
      (false,
       ⟨(if ms.source_choice = S_AVERAGE_OBJECT then "Ave. " ++ ms.object_name
         else ms.object_name), ms.measurement, .noObjects, "Fail"⟩) := by
  rcases hsc with h | h
  · have hb : branch_eval env w ms =
        .ok ⟨true, none, none, .noObjects, "Ave. " ++ ms.object_name⟩ := by
      rw [branch_eval, if_neg (by rw [h]; decide), if_pos h, hdata]
    have hne : ms.source_choice ≠ S_RULES := by rw [h]; decide
    have hev := eval_measurement_nonrules env w ms hne _ hb
    rw [if_pos h]
    exact ⟨hb, by simpa using hev⟩
  · have hb : branch_eval env w ms =
        .ok ⟨true, none, none, .noObjects, ms.object_name⟩ := by
      rw [branch_eval, if_neg (by rw [h]; decide), if_neg (by rw [h]; decide),
        if_pos h, hdata]
    have hne : ms.source_choice ≠ S_RULES := by rw [h]; decide
    have hev := eval_measurement_nonrules env w ms hne _ hb
    rw [if_neg (by rw [h]; decide)]
    exact ⟨hb, by simpa using hev⟩

/-- Witness for C5 at an AVERAGE_OBJECT criterion over an empty object
vector. -/
theorem C5_empty_objects_witness :
    branch_eval exEnvMissing exWorkspace msAvgEmpty = .ok
      ⟨true, none, none, .noObjects,
       if msAvgEmpty.source_choice = S_AVERAGE_OBJECT then
         "Ave. " ++ msAvgEmpty.object_name
       else msAvgEmpty.object_name⟩ ∧
    eval_measurement exEnvMissing exWorkspace msAvgEmpty = .ok
      (false,
       ⟨(if msAvgEmpty.source_choice = S_AVERAGE_OBJECT then
           "Ave. " ++ msAvgEmpty.object_name
         else msAvgEmpty.object_name),
        msAvgEmpty.measurement, .noObjects, "Fail"⟩) :=
  C5_empty_objects exEnvMissing exWorkspace msAvgEmpty (Or.inl rfl) rfl

/-- C6 counterexample: on a score matrix with an all-NaN first row and a
clean second row scoring [0.79, -0.79] with selected class 1, the claim
(formalised by `spec_rules_verdict`: discard rows containing any NaN,
majority test and display over the remaining rows) demands a Fail with
display "--", but the code keeps any row with a non-NaN entry only out
of the discard and divides by the total row count: it returns Pass
(first component true) with display "1 of 2". -/
theorem C6_rules_counterexample :
    spec_rules_verdict rsTwoRows.score [1] = (true, .dashes) ∧
    eval_measurement envTwoRows exWorkspace msRulesEx =
      .ok (true, ⟨IMAGE, "Rules", .ruleCounts 1 2, "Pass"⟩) := by
  refine ⟨spec_rules_verdict_twoRows, ?_⟩
  have h := eval_measurement_rules envTwoRows exWorkspace msRulesEx rsTwoRows
    rfl rfl
  have hcl : msRulesEx.rules_class = [1] := rfl
  rw [h, hcl, code_rules_verdict_twoRows]
  rfl

/-- C6 amended: the code discards only rows whose scores are all NaN,
and both the majority test (`hit_count > total_rows - hit_count`) and
the display ("`hit_count` of `total_rows`" when `total_rows > 1`, else
"--") use the total row count of the score matrix; the claim's 1-row
[0.79, -0.79] example stands: hit_count 1, fail because 1 > 0, display
"--". -/
theorem C6_rules_amended (env : RulesEnv) (w : Workspace)
    (ms : MeasurementSetting) (rs : RuleSet)
    (hs : ms.source_choice = S_RULES)
    (hfs : env.fs (rules_path ms) = .parsed rs) :
    eval_measurement env w ms = .ok
      (!(code_rules_verdict rs.score ms.rules_class).1,
       ⟨IMAGE, "Rules", (code_rules_verdict rs.score ms.rules_class).2,
        if (code_rules_verdict rs.score ms.rules_class).1 then "Fail"
        else "Pass"⟩) ∧
    code_rules_verdict rsOneRow.score [1] = (true, .dashes) ∧
    eval_measurement envOneRow exWorkspace msRulesEx =
      .ok (false, ⟨IMAGE, "Rules", .dashes, "Fail"⟩) := by
  refine ⟨eval_measurement_rules env w ms rs hs hfs,
    code_rules_verdict_oneRow, ?_⟩
  have h := eval_measurement_rules envOneRow exWorkspace msRulesEx rsOneRow
    rfl rfl
  have hcl : msRulesEx.rules_class = [1] := rfl
  rw [h, hcl, code_rules_verdict_oneRow]
  rfl

/-- Witness for the amended C6 at the 1-row example environment. -/
theorem C6_rules_amended_witness :
    (eval_measurement envOneRow exWorkspace msRulesEx = .ok
      (!(code_rules_verdict rsOneRow.score msRulesEx.rules_class).1,
       ⟨IMAGE, "Rules", (code_rules_verdict rsOneRow.score msRulesEx.rules_class).2,
        if (code_rules_verdict rsOneRow.score msRulesEx.rules_class).1 then "Fail"
        else "Pass"⟩)) ∧
    code_rules_verdict rsOneRow.score [1] = (true, .dashes) ∧
    eval_measurement envOneRow exWorkspace msRulesEx =
      .ok (false, ⟨IMAGE, "Rules", .dashes, "Fail"⟩) :=
  C6_rules_amended envOneRow exWorkspace msRulesEx rsOneRow rfl rfl

/-- C7: whenever any flag has a RULES criterion whose rules file is
missing or unreadable, or whose parsed rules target a non-image object,
or reference a feature no earlier pipeline module measures, module
validation fails with a validation error carrying that criterion's
rules-file setting reference. -/
theorem C7_rules_validation (env : RulesEnv) (cols : List String)
    (flags : List Flag)
    (h : ∃ flag ∈ flags, ∃ ms ∈ flag.measurement_settings,
      rules_setting_bad env cols ms = true) :
    ∃ msg flag ms, flag ∈ flags ∧ ms ∈ flag.measurement_settings ∧
      ms.source_choice = S_RULES ∧ rules_setting_bad env cols ms = true ∧
      validate_module env cols flags =
        .error (.validationError msg ms.rules_file_name) := by
  obtain ⟨msg, flag, ms, hf, hm, hb, hsrc, heq⟩ :=
    validate_module_error_of_bad env cols flags h
  exact ⟨msg, flag, ms, hf, hm, hsrc, hb, heq⟩

/-- Witness for C7: a RULES flag whose rules file is missing. -/
theorem C7_rules_validation_witness :
    ∃ msg flag ms, flag ∈ [exFlagRules] ∧ ms ∈ flag.measurement_settings ∧
      ms.source_choice = S_RULES ∧
      rules_setting_bad exEnvMissing ["F"] ms = true ∧
      validate_module exEnvMissing ["F"] [exFlagRules] =
        .error (.validationError msg ms.rules_file_name) :=
  C7_rules_validation exEnvMissing ["F"] [exFlagRules]
    ⟨exFlagRules, by simp, msRulesEx, by simp [exFlagRules], rfl⟩

/-- C8: a well-formed version-1 settings list (N flags, M measurements
each, 7 fields per measurement) migrates deterministically to the
version-4 list (10 fields per measurement, 5 per flag) preserving every
original value with the legacy source strings renamed, and appending the
defaults `cps.NO` (skip), the default rules location, "rules.txt" and
class "1"; the chain passes through versions 2 and 3, and the
legacy-import path first maps into the version-1 shape and then runs the
same chain. -/
theorem C8_schema_migration (fl : List V1Flag) (sv : List String) :
    upgrade_settings (encodeV1 fl) 1 false = .ok (encodeV4 fl, 4, false) ∧
    upgrade_settings sv 1 true =
      (matlab_v1_map sv).bind (fun sv1 => upgrade_settings sv1 1 false) ∧
    upgrade_settings sv 2 true =
      (matlab_v2_map sv).bind (fun sv1 => upgrade_settings sv1 1 false) := by
  refine ⟨?_, ?_, ?_⟩
  · have h := upgrade_settings_encodeV1 fl []
    rwa [List.append_nil] at h
  · cases hm : matlab_v1_map sv with
    | error e => simp [upgrade_settings, hm, Except.bind]
    | ok sv1 => simp [upgrade_settings, hm, Except.bind]
  · cases hm : matlab_v2_map sv with
    | error e => simp [upgrade_settings, hm, Except.bind]
    | ok sv1 => simp [upgrade_settings, hm, Except.bind]

/-- C9 counterexample: the migrator raises no error on settings lists
whose length is inconsistent with the declared counts: a junk field
appended to a well-formed 12-field version-1 list (13 fields) is
silently discarded, and a list missing its final field (11 fields) is
silently truncated into a 15-field result; both return `.ok`. -/
theorem C9_length_counterexample :
    (encodeV1 [exV1Flag]).length = 12 ∧
    exLongList.length = 13 ∧
    upgrade_settings exLongList 1 false = .ok (encodeV4 [exV1Flag], 4, false) ∧
    exShortList.length = 11 ∧
    upgrade_settings exShortList 1 false = .ok (exShortResult, 4, false) :=
  ⟨rfl, rfl, rfl, rfl, rfl⟩

/-- C9 amended: the migrator performs no length validation: any trailing
fields beyond those implied by the declared counts are silently
discarded (and missing trailing fields are silently truncated by
slicing); it does not fail with a configuration error. -/
theorem C9_length_amended (fl : List V1Flag) (junk : List String) :
    upgrade_settings (encodeV1 fl ++ junk) 1 false =
      .ok (encodeV4 fl, 4, false) :=
  upgrade_settings_encodeV1 fl junk

/-- C10: evaluating a RULES criterion consults the rules file afresh (the
evaluation depends only on the file system state at evaluation time, for
any environment); when the file is missing at evaluation time the run
raises the validation error naming the missing file and produces no
pass/fail verdict. -/
theorem C10_rules_missing_at_run (env : RulesEnv) (w : Workspace)
    (ms : MeasurementSetting)
    (hs : ms.source_choice = S_RULES)
    (hmiss : env.fs (rules_path ms) = .missing) :
    eval_measurement env w ms =
      .error (.validationError ("No such rules file: " ++ rules_path ms)
        ms.rules_file_name) ∧
    ∀ (p : Bool) (st : Stats), eval_measurement env w ms ≠ .ok (p, st) := by
  have hb : branch_eval env w ms =
      .error (.validationError ("No such rules file: " ++ rules_path ms)
        ms.rules_file_name) := by
    rw [branch_eval, if_neg (by rw [hs]; decide), if_neg (by rw [hs]; decide),
      if_neg (by rw [hs]; decide), if_pos hs, get_rules, hmiss]
    rfl
  constructor
  · rw [eval_measurement, hb]
    rfl
  · intro p st hcontra
    rw [eval_measurement, hb] at hcontra
    exact absurd hcontra (by simp)

/-- Witness for C10 at a RULES criterion with no rules file present. -/
theorem C10_rules_missing_at_run_witness :
    eval_measurement exEnvMissing exWorkspace msRulesEx =
      .error (.validationError
        ("No such rules file: " ++ rules_path msRulesEx)
        msRulesEx.rules_file_name) ∧
    ∀ (p : Bool) (st : Stats),
      eval_measurement exEnvMissing exWorkspace msRulesEx ≠ .ok (p, st) :=
  C10_rules_missing_at_run exEnvMissing exWorkspace msRulesEx rfl rfl

end FlagImage
